import Mathlib

/-!
Verification of the dwcoa-financials budget/dues computation engine.

The definitions below are a shallow embedding of the Python backend:
  * `app/services/budget_calc.py`  (proration, actuals, budget summary)
  * `app/services/database.py`     (query helpers over the SQLite store)
  * `app/routes/dues.py`           (carryover and dues status)
  * `app/routes/budgets.py`        (budget upsert / copy / lock handlers)
  * `app/routes/statement.py`      (per-unit statement and payment history)

Modelling conventions:
  * Monetary values and ownership percentages are rationals (`ℚ`); the source
    uses Python floats / `Decimal`, and the spec's arithmetic is stated over
    exact decimals.
  * Dates are `(year, month, day)` triples; SQL comparison of ISO-8601 date
    strings is lexicographic comparison of the triples.
  * The SQLite database is a `DB` structure of typed rows; SQL queries are
    translated into list filters/folds with the same WHERE conditions.
  * Python code that can raise is embedded as `Except String`; in particular
    `budget_calc.get_total_operating_budget(year, as_of_date)` takes two
    required positional arguments, so the one-argument calls in
    `routes/dues.py` (lines 41 and 102) are embedded as a raised `TypeError`.
-/

namespace DWCOA

/-- ISO-8601 calendar date (`YYYY-MM-DD`). SQL string comparison of ISO dates
is lexicographic comparison of (year, month, day). -/
structure Date where
  year : Int
  month : Nat
  day : Nat
deriving Repr, DecidableEq

/-- `post_date <= as_of_date` on ISO date strings: lexicographic order. -/
def Date.le (a b : Date) : Prop :=
  a.year < b.year ∨ (a.year = b.year ∧
    (a.month < b.month ∨ (a.month = b.month ∧ a.day ≤ b.day)))

instance (a b : Date) : Decidable (Date.le a b) := by
  unfold Date.le; exact inferInstance

/-- Row of the `categories` table. `timing` is the category's optional default
proration timing (nullable column). -/
structure Category where
  id : Nat
  name : String
  type : String
  active : Bool
  timing : Option String
deriving Repr, DecidableEq

/-- Row of the `budgets` table: unique per (year, category), with an optional
per-entry timing override (nullable column). -/
structure Budget where
  year : Int
  categoryId : Nat
  annualAmount : ℚ
  timing : Option String
deriving Repr, DecidableEq

/-- Row of the `transactions` table (fields the engine reads). `debit` and
`credit` are nullable; `categoryId` is the nullable category assignment. -/
structure Txn where
  id : Nat
  accountName : String
  postDate : Date
  description : String
  debit : Option ℚ
  credit : Option ℚ
  balance : ℚ
  categoryId : Option Nat
deriving Repr, DecidableEq

/-- Row of the `units` table. -/
structure CondoUnit where
  number : String
  ownershipPct : ℚ
deriving Repr, DecidableEq

/-- Row of the `unit_past_dues` table: manually seeded historical debt,
unique per (unit, year). -/
structure UnitPastDueRow where
  unitNumber : String
  year : Int
  pastDueBalance : ℚ
deriving Repr, DecidableEq

/-- Row of the `budget_locks` table; `locked` is stored as an INTEGER
(1 = locked), mirroring `database.set_budget_lock`. -/
structure BudgetLockRow where
  year : Int
  locked : Int
deriving Repr, DecidableEq

/-- The relational store the engine queries (the SQLite database).
`currentYearConfig` models the parsed `app_config['current_year']` value
(`None` when the key is absent). -/
structure DB where
  categories : List Category
  budgets : List Budget
  transactions : List Txn
  units : List CondoUnit
  unitPastDues : List UnitPastDueRow
  budgetLocks : List BudgetLockRow
  currentYearConfig : Option Int
deriving Repr, DecidableEq

/-- SQL `SUM` over a nullable column followed by the Python `or 0` /
`if row['total'] else 0.0` guard: NULLs are ignored and an empty or all-NULL
sum is 0. -/
def sqlSum (xs : List (Option ℚ)) : ℚ :=
  (xs.filterMap id).sum

/-- `SELECT * FROM categories WHERE id = ?` (`JOIN categories c ON ... = c.id`). -/
def findCategory (db : DB) (cid : Nat) : Option Category :=
  db.categories.find? (fun c => c.id = cid)

/-- Name of a transaction's assigned category, when both the assignment and
the category row exist (an inner JOIN drops the row otherwise). -/
def txnCategoryName (db : DB) (t : Txn) : Option String :=
  t.categoryId.bind (fun cid => (findCategory db cid).map (fun c => c.name))

/-- Python `round(x, 2)` idealised over ℚ: round to 2 decimal places,
half-to-even (banker's rounding). -/
def round2 (q : ℚ) : ℚ :=
  let x : ℚ := 100 * q
  let n : ℤ := ⌊x⌋
  let r : ℤ := if x - n < 1/2 then n
    else if 1/2 < x - n then n + 1
    else if n % 2 = 0 then n else n + 1
  (r : ℚ) / 100

/-! ## Proration Engine — `budget_calc.calculate_ytd_budget` -/

/-- `budget_calc.CALCULATED_DUES_START_YEAR`: 2025+ uses calculated dues. -/
def CALCULATED_DUES_START_YEAR : Int := 2025

/-- `budget_calc.calculate_ytd_budget(annual_amount, timing, as_of_date)`.
`timing` is `Option String` because the SQL callers pass
`COALESCE(b.timing, c.timing)`, which can still be NULL; a `None` timing
matches none of the string comparisons and falls to the final default. -/
def calculate_ytd_budget (annualAmount : ℚ) (timing : Option String)
    (asOfDate : Date) : ℚ :=
  let month := asOfDate.month
  if timing = some "monthly" then
    (annualAmount / 12) * month
  else if timing = some "quarterly" then
    let quartersThrough := ((month - 1) / 3) + 1
    (annualAmount / 4) * quartersThrough
  else if timing = some "annual" then
    annualAmount
  else
    annualAmount

/-- Reference proration, written from the spec's words (claim C6): monthly is
`annual/12 * month_number`; quarterly is `annual/4 * ⌈month/3⌉` (the whole
quarter's share is available at quarter start); annual timing and any
unknown or unspecified timing yield the full annual amount. -/
def ytdBudgetSpecRef (annualAmount : ℚ) (timing : Option String)
    (asOfDate : Date) : ℚ :=
  if timing = some "monthly" then
    annualAmount / 12 * asOfDate.month
  else if timing = some "quarterly" then
    annualAmount / 4 * (⌈(asOfDate.month : ℚ) / 3⌉ : ℤ)
  else
    annualAmount

example : calculate_ytd_budget 1200 (some "monthly") ⟨2025, 6, 15⟩ = 600 := by
  norm_num [calculate_ytd_budget]

example : calculate_ytd_budget 1500 (some "quarterly") ⟨2025, 8, 15⟩ = 1125 := by
  norm_num [calculate_ytd_budget]; decide

example : calculate_ytd_budget 1200 (some "weird") ⟨2025, 6, 15⟩ = 1200 := by
  norm_num [calculate_ytd_budget]; decide

example : calculate_ytd_budget 1200 none ⟨2025, 6, 15⟩ = 1200 := by
  norm_num [calculate_ytd_budget]; decide

example : round2 (1234567/100000) = 1235/100 := by
  norm_num [round2]

example : round2 (-100) = -100 := by
  norm_num [round2]

/-! ## Operating budget totals — `budget_calc` / `database` -/

/-- `budget_calc.get_total_operating_budget(year, as_of_date)`: the YTD-prorated
sum over `budgets b JOIN categories c` with `b.year = ? AND c.type = 'Expense'
AND c.active = 1`, prorating each row with `COALESCE(b.timing, c.timing)`. -/
def get_total_operating_budget (db : DB) (year : Int) (asOfDate : Date) : ℚ :=
  (db.budgets.filterMap (fun b =>
    match findCategory db b.categoryId with
    | some c =>
      if b.year = year ∧ c.type = "Expense" ∧ c.active = true then
        some (calculate_ytd_budget b.annualAmount
          (match b.timing with | some t => some t | none => c.timing) asOfDate)
      else none
    | none => none)).sum

/-- `database.get_total_operating_budget_annual(year)` (statement API): sum of
annual amounts over Expense budgets for the year, excluding the
'Reserve Contribution' and 'Reserve Expenses' categories. Note this query has
no `c.active` filter. -/
def get_total_operating_budget_annual (db : DB) (year : Int) : ℚ :=
  (db.budgets.filterMap (fun b =>
    match findCategory db b.categoryId with
    | some c =>
      if b.year = year ∧ c.type = "Expense" ∧
          c.name ≠ "Reserve Contribution" ∧ c.name ≠ "Reserve Expenses" then
        some b.annualAmount
      else none
    | none => none)).sum

/-- `database.get_unit_past_due(unit_number, year)`: the seeded
`unit_past_dues` balance, 0 when no row exists. -/
def getUnitPastDue (db : DB) (unitNumber : String) (year : Int) : ℚ :=
  match db.unitPastDues.find? (fun r =>
      r.unitNumber = unitNumber ∧ r.year = year) with
  | some r => r.pastDueBalance
  | none => 0

/-- `database.get_unit_payments_total(unit_number, year)`:
`SUM(t.credit)` over transactions joined to the category named
`'Dues <unit>'` with `strftime('%Y', post_date) = year` (no as-of filter);
NULL sum becomes 0. -/
def get_unit_payments_total (db : DB) (unitNumber : String) (year : Int) : ℚ :=
  sqlSum ((db.transactions.filter (fun t =>
    decide (txnCategoryName db t = some ("Dues " ++ unitNumber) ∧
      t.postDate.year = year))).map (fun t => t.credit))

/-- `database.is_budget_locked(year)`: the `budget_locks` row exists and its
`locked` column equals 1. -/
def is_budget_locked (db : DB) (year : Int) : Bool :=
  match db.budgetLocks.find? (fun l => l.year = year) with
  | some l => decide (l.locked = 1)
  | none => false

/-! ## Actuals Aggregator — `budget_calc.get_ytd_actuals` -/

/-- One row of the `get_ytd_actuals` join before grouping: a transaction
joined to its assigned category, kept when
`strftime('%Y', post_date) = year AND post_date <= as_of AND category_id IS
NOT NULL AND c.type IN ('Income', 'Expense')`. The value is the group key
(the category id) paired with `CASE WHEN c.type = 'Income' THEN t.credit
ELSE t.debit END` (still nullable). -/
def ytdActualsRow (db : DB) (year : Int) (asOf : Date) (t : Txn) :
    Option (Nat × Option ℚ) :=
  match t.categoryId with
  | none => none
  | some cid =>
    match findCategory db cid with
    | none => none
    | some c =>
      if (c.type = "Income" ∨ c.type = "Expense") ∧
          t.postDate.year = year ∧ Date.le t.postDate asOf then
        some (cid, if c.type = "Income" then t.credit else t.debit)
      else none

/-- `budget_calc.get_ytd_actuals(year, as_of_date)` as a map from category id
to its aggregate: `GROUP BY t.category_id` with `SUM(...)` (NULLs ignored,
all-NULL groups giving 0 via the `or 0` on the Python side), `none` when the
category id has no row in the grouped result. -/
def getYtdActuals (db : DB) (year : Int) (asOf : Date) (cid : Nat) :
    Option ℚ :=
  let vals := ((db.transactions.filterMap (ytdActualsRow db year asOf)).filter
    (fun r => decide (r.1 = cid))).map (fun r => r.2)
  if vals.isEmpty then none else some (sqlSum vals)

/-- Reference aggregate, written from the spec's words (claim C8): per
category, sum `credit` if the category's type is Income and otherwise `debit`,
over exactly the transactions whose post date's year equals the given year,
whose post_date is on or before as_of_date, and whose assigned category is
that category; the category appears only if its type is Income or Expense and
at least one transaction matches. -/
def ytdActualsSpec (db : DB) (year : Int) (asOf : Date) (cid : Nat) :
    Option ℚ :=
  match findCategory db cid with
  | none => none
  | some c =>
    if c.type = "Income" ∨ c.type = "Expense" then
      let matching := db.transactions.filter (fun t =>
        decide (t.categoryId = some cid ∧ t.postDate.year = year ∧
          Date.le t.postDate asOf))
      if matching.isEmpty then none
      else some (sqlSum (matching.map (fun t =>
        if c.type = "Income" then t.credit else t.debit)))
    else none

/-- Elementwise description of the `get_ytd_actuals` pipeline restricted to a
single group key `cid`, assuming the category lookup for `cid` yields `c` with
an Income/Expense type. -/
lemma ytdActualsRow_key_eq (db : DB) (year : Int) (asOf : Date) (cid : Nat)
    (c : Category) (hfc : findCategory db cid = some c)
    (hty : c.type = "Income" ∨ c.type = "Expense") (t : Txn) :
    ((ytdActualsRow db year asOf t).filter
        (fun r => decide (r.1 = cid))).map (fun r => r.2) =
      if decide (t.categoryId = some cid ∧ t.postDate.year = year ∧
          Date.le t.postDate asOf) = true then
        some (if c.type = "Income" then t.credit else t.debit)
      else none := by
  cases ht : t.categoryId with
  | none => simp [ytdActualsRow, ht, Option.filter]
  | some cid' =>
    by_cases hc2 : cid' = cid
    · subst hc2
      by_cases hY : t.postDate.year = year
      · by_cases hZ : Date.le t.postDate asOf
        · simp [ytdActualsRow, ht, hfc, hty, hY, hZ, Option.filter]
        · simp [ytdActualsRow, ht, hfc, hY, hZ, Option.filter]
      · simp [ytdActualsRow, ht, hfc, hY, Option.filter]
    · cases hfc' : findCategory db cid' with
      | none => simp [ytdActualsRow, ht, hfc', hc2, Option.filter]
      | some c' =>
        by_cases hcond : (c'.type = "Income" ∨ c'.type = "Expense") ∧
            t.postDate.year = year ∧ Date.le t.postDate asOf
        · simp [ytdActualsRow, ht, hfc', hcond, hc2, Option.filter]
        · simp [ytdActualsRow, ht, hfc', hcond, hc2, Option.filter]

/-- Elementwise: when the category lookup for `cid` fails or yields a type
other than Income/Expense, the pipeline never produces a row with key `cid`. -/
lemma ytdActualsRow_key_none (db : DB) (year : Int) (asOf : Date) (cid : Nat)
    (hfc : ∀ c, findCategory db cid = some c →
      ¬(c.type = "Income" ∨ c.type = "Expense")) (t : Txn) :
    ((ytdActualsRow db year asOf t).filter
        (fun r => decide (r.1 = cid))).map (fun r => r.2) = none := by
  cases ht : t.categoryId with
  | none => simp [ytdActualsRow, ht, Option.filter]
  | some cid' =>
    cases hfc' : findCategory db cid' with
    | none => simp [ytdActualsRow, ht, hfc', Option.filter]
    | some c' =>
      by_cases hc2 : cid' = cid
      · subst hc2
        have hn := hfc c' hfc'
        simp [ytdActualsRow, ht, hfc', hn, Option.filter]
      · by_cases hcond : (c'.type = "Income" ∨ c'.type = "Expense") ∧
            t.postDate.year = year ∧ Date.le t.postDate asOf
        · simp [ytdActualsRow, ht, hfc', hcond, hc2, Option.filter]
        · simp [ytdActualsRow, ht, hfc', hcond, hc2, Option.filter]

/-- C8: `get_ytd_actuals` computes, per category, the sum of `credit` for
Income categories and `debit` otherwise, over exactly the transactions of the
given year posted on or before `as_of_date` whose assigned category has type
Income or Expense; Transfer/Internal categories never appear, and a category
with no matching transactions is absent from the result. -/
theorem ytd_actuals_matches_spec (db : DB) (year : Int) (asOf : Date)
    (cid : Nat) :
    getYtdActuals db year asOf cid = ytdActualsSpec db year asOf cid := by
  cases hfc : findCategory db cid with
  | none =>
    simp only [getYtdActuals, ytdActualsSpec, hfc]
    rw [List.filter_filterMap, List.map_filterMap]
    rw [List.filterMap_congr (fun t _ =>
      ytdActualsRow_key_none db year asOf cid
        (fun c h => by rw [hfc] at h; exact absurd h (by simp)) t)]
    simp
  | some c =>
    simp only [getYtdActuals, ytdActualsSpec, hfc]
    rw [List.filter_filterMap, List.map_filterMap]
    by_cases hty : c.type = "Income" ∨ c.type = "Expense"
    · have hconv : (db.transactions.filterMap (fun t =>
          if decide (t.categoryId = some cid ∧ t.postDate.year = year ∧
              Date.le t.postDate asOf) = true then
            some (if c.type = "Income" then t.credit else t.debit)
          else none)) =
          ((db.transactions.filter (fun t =>
            decide (t.categoryId = some cid ∧ t.postDate.year = year ∧
              Date.le t.postDate asOf))).map (fun t =>
                if c.type = "Income" then t.credit else t.debit)) := by
        rw [← List.filterMap_eq_map, List.filterMap_filter]
        exact List.filterMap_congr (fun t _ => by split <;> simp)
      rw [List.filterMap_congr (fun t _ =>
        ytdActualsRow_key_eq db year asOf cid c hfc hty t), hconv, if_pos hty]
      cases hm : (db.transactions.filter (fun t =>
          decide (t.categoryId = some cid ∧ t.postDate.year = year ∧
            Date.le t.postDate asOf))) with
      | nil => simp
      | cons x xs => simp
    · rw [List.filterMap_congr (fun t _ =>
        ytdActualsRow_key_none db year asOf cid
          (fun c' h => by
            rw [hfc] at h
            injection h with h'
            exact h' ▸ hty) t), if_neg hty]
      simp

/-- C6: for every annual amount, timing and as-of date (with a valid calendar
month), `calculate_ytd_budget` equals the piecewise reference definition:
`annual/12 * month` for monthly timing, `annual/4 * ⌈month/3⌉` for quarterly
timing, and the full annual amount for annual or any unknown/unspecified
timing. -/
theorem ytd_budget_piecewise (annual : ℚ) (timing : Option String)
    (asOf : Date) (h1 : 1 ≤ asOf.month) (h2 : asOf.month ≤ 12) :
    calculate_ytd_budget annual timing asOf = ytdBudgetSpecRef annual timing asOf := by
  obtain ⟨y, m, d⟩ := asOf
  simp only [calculate_ytd_budget, ytdBudgetSpecRef]
  split_ifs with hm hq
  · ring
  · have hc : (⌈((m : ℕ) : ℚ) / 3⌉ : ℤ) = (((m - 1) / 3 + 1 : ℕ) : ℤ) := by
      simp only at h1 h2
      interval_cases m <;> norm_num [Int.ceil_eq_iff]
    rw [hc]
    norm_cast
  · rfl
  · rfl

/-- Witness for C6 at the spec's own example: annual $1,500, quarterly,
as of August (Q3) — both sides defined and equal ($1,125). -/
theorem ytd_budget_piecewise_witness :
    1 ≤ (⟨2025, 8, 15⟩ : Date).month ∧ (⟨2025, 8, 15⟩ : Date).month ≤ 12 ∧
      calculate_ytd_budget 1500 (some "quarterly") ⟨2025, 8, 15⟩ =
        ytdBudgetSpecRef 1500 (some "quarterly") ⟨2025, 8, 15⟩ :=
  ⟨by decide, by decide,
    ytd_budget_piecewise 1500 (some "quarterly") ⟨2025, 8, 15⟩
      (by decide) (by decide)⟩

/-! ## Budget Summary Builder — `budget_calc.get_budget_summary` -/

/-- One row of `database.get_budgets(year)`: every active category LEFT JOINed
with its budget row for the year (`COALESCE(b.annual_amount, 0)`). The SELECT
list is exactly `c.id, c.name, c.type, COALESCE(b.annual_amount, 0), b.id,
? as year`: note that no timing column (and no `effective_timing` alias) is
selected. The `b.id` column is unused by the engine and omitted here; the SQL
`ORDER BY c.type, c.name` only affects presentation order and is modelled as
the stored category order. -/
structure BudgetRow where
  categoryId : Nat
  categoryName : String
  categoryType : String
  annualAmount : ℚ
  year : Int
deriving Repr, DecidableEq

/-- `database.get_budgets(year)`. -/
def get_budgets (db : DB) (year : Int) : List BudgetRow :=
  (db.categories.filter (fun c => c.active)).map (fun c =>
    { categoryId := c.id
      categoryName := c.name
      categoryType := c.type
      annualAmount :=
        match db.budgets.find? (fun b => b.categoryId = c.id ∧ b.year = year) with
        | some b => b.annualAmount
        | none => 0
      year := year })

/-- Per-category line of the budget summary (amounts rounded to 2 decimals
at this presentation boundary). -/
structure CategorySummary where
  id : Nat
  category : String
  type : String
  timing : String
  annualAmount : ℚ
  ytdBudget : ℚ
  ytdActual : ℚ
  remaining : ℚ
deriving Repr, DecidableEq

/-- `income_summary` of `get_budget_summary`. -/
structure IncomeSummary where
  ytdBudget : ℚ
  ytdActual : ℚ
  calculated : Bool
  totalOperatingBudget : Option ℚ
  categories : List CategorySummary
deriving Repr, DecidableEq

/-- `expense_summary` of `get_budget_summary`. -/
structure ExpenseSummary where
  ytdBudget : ℚ
  ytdActual : ℚ
  remaining : ℚ
  categories : List CategorySummary
deriving Repr, DecidableEq

/-- Result of `get_budget_summary`. -/
structure BudgetSummary where
  year : Int
  asOfDate : Date
  incomeSummary : IncomeSummary
  expenseSummary : ExpenseSummary
deriving Repr, DecidableEq

/-- Accumulator of the `for budget in budgets` loop in `get_budget_summary`. -/
structure SummaryAcc where
  incomeCategories : List CategorySummary
  incomeYtdBudget : ℚ
  incomeYtdActual : ℚ
  expenseCategories : List CategorySummary
  expenseYtdBudget : ℚ
  expenseYtdActual : ℚ
  interestYtdBudget : ℚ
deriving Repr, DecidableEq

/-- Body of the `for budget in budgets` loop in `get_budget_summary`.
`timing = budget.get('effective_timing', 'monthly')`: since
`database.get_budgets` selects no `effective_timing` column, the dictionary
lookup always takes the `'monthly'` default. -/
def summaryStep (db : DB) (year : Int) (asOf : Date)
    (acc : SummaryAcc) (budget : BudgetRow) : SummaryAcc :=
  let catType := budget.categoryType
  let timing := "monthly"
  let annual := budget.annualAmount
  let ytdBudget := calculate_ytd_budget annual (some timing) asOf
  let ytdActual := (getYtdActuals db year asOf budget.categoryId).getD 0
  let remaining := ytdBudget - ytdActual
  if ytdBudget = 0 ∧ ytdActual = 0 then acc
  else
    let catData : CategorySummary :=
      { id := budget.categoryId
        category := budget.categoryName
        type := catType
        timing := timing
        annualAmount := annual
        ytdBudget := round2 ytdBudget
        ytdActual := round2 ytdActual
        remaining := round2 remaining }
    if catType = "Income" then
      { acc with
        incomeCategories := acc.incomeCategories ++ [catData]
        incomeYtdActual := acc.incomeYtdActual + ytdActual
        interestYtdBudget :=
          if budget.categoryName = "Interest income" then ytdBudget
          else acc.interestYtdBudget
        incomeYtdBudget :=
          if year < CALCULATED_DUES_START_YEAR then acc.incomeYtdBudget + ytdBudget
          else acc.incomeYtdBudget }
    else if catType = "Expense" then
      { acc with
        expenseCategories := acc.expenseCategories ++ [catData]
        expenseYtdBudget := acc.expenseYtdBudget + ytdBudget
        expenseYtdActual := acc.expenseYtdActual + ytdActual }
    else acc

/-- `budget_calc.get_budget_summary(year, as_of_date)` (with `as_of_date`
supplied; the Python default fills in today's date). -/
def get_budget_summary (db : DB) (year : Int) (asOf : Date) : BudgetSummary :=
  let budgets := get_budgets db year
  let acc := budgets.foldl (summaryStep db year asOf) ⟨[], 0, 0, [], 0, 0, 0⟩
  let totalOperatingBudgetYtd : Option ℚ :=
    if CALCULATED_DUES_START_YEAR ≤ year then
      some (get_total_operating_budget db year asOf)
    else none
  let incomeYtdBudget :=
    match totalOperatingBudgetYtd with
    | some t => t + acc.interestYtdBudget
    | none => acc.incomeYtdBudget
  { year := year
    asOfDate := asOf
    incomeSummary :=
      { ytdBudget := round2 incomeYtdBudget
        ytdActual := round2 acc.incomeYtdActual
        calculated := decide (CALCULATED_DUES_START_YEAR ≤ year)
        totalOperatingBudget :=
          match totalOperatingBudgetYtd with
          | some t => if t = 0 then none else some (round2 t)
          | none => none
        categories := acc.incomeCategories }
    expenseSummary :=
      { ytdBudget := round2 acc.expenseYtdBudget
        ytdActual := round2 acc.expenseYtdActual
        remaining := round2 (acc.expenseYtdBudget - acc.expenseYtdActual)
        categories := acc.expenseCategories } }

/-- The `interest_ytd_budget` tracked by the summary loop, as a standalone
function: the (monthly-prorated, per the loop) YTD budget of the last
non-skipped Income row named 'Interest income', 0 when there is none. -/
def interestYtdBudget (db : DB) (year : Int) (asOf : Date) : ℚ :=
  (get_budgets db year).foldl (fun acc budget =>
    let ytdB := calculate_ytd_budget budget.annualAmount (some "monthly") asOf
    let ytdA := (getYtdActuals db year asOf budget.categoryId).getD 0
    if ytdB = 0 ∧ ytdA = 0 then acc
    else if budget.categoryType = "Income" ∧
        budget.categoryName = "Interest income" then ytdB
    else acc) 0

/-- The summary-loop step changes the tracked `interest_ytd_budget` exactly as
the standalone `interestYtdBudget` fold does. -/
lemma summaryStep_interest (db : DB) (year : Int) (asOf : Date)
    (acc : SummaryAcc) (b : BudgetRow) :
    (summaryStep db year asOf acc b).interestYtdBudget =
      (let ytdB := calculate_ytd_budget b.annualAmount (some "monthly") asOf
       let ytdA := (getYtdActuals db year asOf b.categoryId).getD 0
       if ytdB = 0 ∧ ytdA = 0 then acc.interestYtdBudget
       else if b.categoryType = "Income" ∧
           b.categoryName = "Interest income" then ytdB
       else acc.interestYtdBudget) := by
  unfold summaryStep
  by_cases h1 : calculate_ytd_budget b.annualAmount (some "monthly") asOf = 0 ∧
      (getYtdActuals db year asOf b.categoryId).getD 0 = 0
  · simp [h1]
  · by_cases h2 : b.categoryType = "Income"
    · by_cases h3 : b.categoryName = "Interest income"
      · simp [h1, h2, h3]
      · simp [h1, h2, h3]
    · by_cases h4 : b.categoryType = "Expense"
      · simp [h1, h2, h4]
      · simp [h1, h2, h4]

/-- Projecting `interest_ytd_budget` out of the whole summary loop. -/
lemma summary_fold_interest (db : DB) (year : Int) (asOf : Date)
    (rows : List BudgetRow) (acc : SummaryAcc) :
    (rows.foldl (summaryStep db year asOf) acc).interestYtdBudget =
      rows.foldl (fun a budget =>
        let ytdB := calculate_ytd_budget budget.annualAmount (some "monthly") asOf
        let ytdA := (getYtdActuals db year asOf budget.categoryId).getD 0
        if ytdB = 0 ∧ ytdA = 0 then a
        else if budget.categoryType = "Income" ∧
            budget.categoryName = "Interest income" then ytdB
        else a) acc.interestYtdBudget := by
  induction rows generalizing acc with
  | nil => rfl
  | cons b rows ih =>
    rw [List.foldl_cons, List.foldl_cons, ih, summaryStep_interest]

/-- C5 (amended): for every year at or past the calculated-dues cutoff, the
income summary's ytd_budget is derived as the YTD-prorated operating budget
(the sum over all active Expense-category budget rows) plus the interest
income category's tracked YTD budget — not a direct sum of income-category
budgets; the summary carries `calculated = true`, and it carries the
`total_operating_budget` figure whenever that YTD total is nonzero (the field
is null when the total is zero). -/
theorem income_budget_is_derived (db : DB) (year : Int) (asOf : Date)
    (h : CALCULATED_DUES_START_YEAR ≤ year) :
    (get_budget_summary db year asOf).incomeSummary.calculated = true ∧
    (get_budget_summary db year asOf).incomeSummary.ytdBudget =
      round2 (get_total_operating_budget db year asOf +
        interestYtdBudget db year asOf) ∧
    (get_budget_summary db year asOf).incomeSummary.totalOperatingBudget =
      (if get_total_operating_budget db year asOf = 0 then none
       else some (round2 (get_total_operating_budget db year asOf))) := by
  have hi : ((get_budgets db year).foldl (summaryStep db year asOf)
      ⟨[], 0, 0, [], 0, 0, 0⟩).interestYtdBudget =
      interestYtdBudget db year asOf := by
    rw [interestYtdBudget, summary_fold_interest]
  simp only [get_budget_summary, if_pos h, hi]
  simp [h]

/-- Small database exercising the derived income budget: one Expense budget
($1,200, defaulting to annual timing in the operating-budget query) and an
Interest income budget ($120). -/
def derivedIncomeDB : DB :=
  { categories := [⟨1, "Repairs", "Expense", true, none⟩,
      ⟨2, "Interest income", "Income", true, none⟩]
    budgets := [⟨2025, 1, 1200, none⟩, ⟨2025, 2, 120, none⟩]
    transactions := []
    units := []
    unitPastDues := []
    budgetLocks := []
    currentYearConfig := none }

/-- Witness for C5's theorem at a concrete database and date. -/
theorem income_budget_is_derived_witness :
    CALCULATED_DUES_START_YEAR ≤ 2025 ∧
    ((get_budget_summary derivedIncomeDB 2025 ⟨2025, 6, 15⟩).incomeSummary.calculated = true ∧
    (get_budget_summary derivedIncomeDB 2025 ⟨2025, 6, 15⟩).incomeSummary.ytdBudget =
      round2 (get_total_operating_budget derivedIncomeDB 2025 ⟨2025, 6, 15⟩ +
        interestYtdBudget derivedIncomeDB 2025 ⟨2025, 6, 15⟩) ∧
    (get_budget_summary derivedIncomeDB 2025 ⟨2025, 6, 15⟩).incomeSummary.totalOperatingBudget =
      (if get_total_operating_budget derivedIncomeDB 2025 ⟨2025, 6, 15⟩ = 0 then none
       else some (round2 (get_total_operating_budget derivedIncomeDB 2025 ⟨2025, 6, 15⟩)))) :=
  ⟨by decide, income_budget_is_derived derivedIncomeDB 2025 ⟨2025, 6, 15⟩ (by decide)⟩

/-- The empty store: no rows in any table. -/
def emptyDB : DB := ⟨[], [], [], [], [], [], none⟩

/-- C5 counterexample to the unamended claim: for a calculated year with no
budget rows, the income summary does NOT carry the `total_operating_budget`
figure — the field is null (`round(x, 2) if x else None` with `x == 0.0`),
even though `calculated` is true. -/
theorem income_budget_figure_missing_at_zero :
    (get_budget_summary emptyDB 2025 ⟨2025, 6, 15⟩).incomeSummary.totalOperatingBudget
        = none ∧
    (get_budget_summary emptyDB 2025 ⟨2025, 6, 15⟩).incomeSummary.calculated = true ∧
    CALCULATED_DUES_START_YEAR ≤ 2025 := by
  refine ⟨?_, by decide, by decide⟩
  simp [get_budget_summary, get_budgets, get_total_operating_budget, emptyDB,
    CALCULATED_DUES_START_YEAR]

/-- Database exhibiting the timing fallback: the category's default timing is
'annual' and the budget row has no override, so the claimed effective timing
is 'annual'. -/
def timingFallbackDB : DB :=
  { categories := [⟨1, "Insurance", "Expense", true, some "annual"⟩]
    budgets := [⟨2025, 1, 1200, none⟩]
    transactions := []
    units := []
    unitPastDues := []
    budgetLocks := []
    currentYearConfig := none }

/-- C3 (code evaluated at the failing input): with a $1,200 budget whose
category default timing is 'annual' and no row override, as of January the
summary prorates the entry as 'monthly' ($100 instead of the full $1,200 that
the claimed fallback — implemented by `COALESCE(b.timing, c.timing)` in
`get_total_operating_budget` — would give for the very same row). -/
theorem summary_ignores_timing_fallback :
    (get_budget_summary timingFallbackDB 2025 ⟨2025, 1, 15⟩).expenseSummary.ytdBudget
        = 100 ∧
    ((get_budget_summary timingFallbackDB 2025 ⟨2025, 1, 15⟩).expenseSummary.categories.map
        (fun e => e.timing)) = ["monthly"] ∧
    calculate_ytd_budget 1200 (some "annual") ⟨2025, 1, 15⟩ = 1200 ∧
    get_total_operating_budget timingFallbackDB 2025 ⟨2025, 1, 15⟩ = 1200 ∧
    (100 : ℚ) ≠ 1200 := by
  refine ⟨?_, ?_, ?_, ?_, by norm_num⟩
  · norm_num +decide [get_budget_summary, get_budgets, summaryStep, getYtdActuals,
      ytdActualsRow, timingFallbackDB, calculate_ytd_budget, round2, sqlSum,
      findCategory, CALCULATED_DUES_START_YEAR]
  · norm_num +decide [get_budget_summary, get_budgets, summaryStep, getYtdActuals,
      ytdActualsRow, timingFallbackDB, calculate_ytd_budget, round2, sqlSum,
      findCategory, CALCULATED_DUES_START_YEAR]
  · norm_num +decide [calculate_ytd_budget]
  · norm_num +decide [get_total_operating_budget, timingFallbackDB, findCategory,
      calculate_ytd_budget, List.filterMap_cons, List.sum_cons]

/-! ## Dues / Carryover Calculator — `routes/dues.py` -/

/-- `dues.BASE_YEAR`: first year with transaction data. -/
def BASE_YEAR : Int := 2025

/-- The error Python raises at
`budget_calc.get_total_operating_budget(year)` (dues.py lines 41 and 102):
the function's signature is `get_total_operating_budget(year, as_of_date)`
with no default for `as_of_date`, so the one-argument call raises. -/
def typeErrorMissingAsOf : String :=
  "TypeError: get_total_operating_budget() missing 1 required positional argument: as_of_date"

/-- `range(BASE_YEAR, target_year)` over `Int`. -/
def intRange (a b : Int) : List Int :=
  (List.range (b - a).toNat).map (fun (i : Nat) => a + (i : Int))

/-- Body of the `for year in range(BASE_YEAR, target_year)` loop in
`calculate_unit_carryover`. After reading the seeded historical debt, the loop
evaluates `budget_calc.get_total_operating_budget(year)` — a one-argument call
of a two-argument function — so it raises before `annual_dues`, `paid` or the
carryover update are computed. -/
def carryoverYearStep (db : DB) (u : CondoUnit) (_carryover : ℚ) (year : Int) :
    Except String ℚ :=
  let _historicalDebt := getUnitPastDue db u.number year
  Except.error typeErrorMissingAsOf

/-- `dues.calculate_unit_carryover(unit, target_year)`: for
`target_year <= BASE_YEAR` the seeded `unit_past_dues` value (0 when absent);
otherwise the year-walking loop, whose first iteration raises. -/
def calculate_unit_carryover (db : DB) (u : CondoUnit) (targetYear : Int) :
    Except String ℚ :=
  if targetYear ≤ BASE_YEAR then
    Except.ok (getUnitPastDue db u.number targetYear)
  else
    (intRange BASE_YEAR targetYear).foldlM (carryoverYearStep db u) 0

/-- Per-unit dues payments through `as_of_date`: the `dues_sql` aggregate
(`SUM(t.credit)` over transactions joined to categories named `'Dues %'`,
grouped by name) followed by `dues_by_unit.get(unit_number, 0)`. -/
def duesPaid (db : DB) (year : Int) (asOf : Date) (unitNumber : String) : ℚ :=
  sqlSum ((db.transactions.filter (fun t =>
    decide (txnCategoryName db t = some ("Dues " ++ unitNumber) ∧
      t.postDate.year = year ∧ Date.le t.postDate asOf))).map (fun t => t.credit))

/-- Legacy per-unit dues budgets: the `dues_budget_sql` rows (budgets joined
to categories named `'Dues %'` for the year) keyed by unit number, with
`dues_budgets.get(unit_number, 0)`. -/
def duesBudgetLegacy (db : DB) (year : Int) (unitNumber : String) : ℚ :=
  ((db.budgets.filter (fun b =>
    decide (b.year = year ∧ (findCategory db b.categoryId).map (fun c => c.name) =
      some ("Dues " ++ unitNumber)))).map (fun b => b.annualAmount)).getLastD 0

/-- One element of the `units` list in the dues-status payload. -/
structure UnitDuesEntry where
  unit : String
  ownershipPct : ℚ
  pastDueBalance : ℚ
  annualBudget : ℚ
  expectedTotal : ℚ
  paidYtd : ℚ
  outstanding : ℚ
deriving Repr, DecidableEq

/-- Result of `get_dues_status`. -/
structure DuesStatus where
  year : Int
  totalAnnualBudget : ℚ
  totalOperatingBudget : Option ℚ
  calculated : Bool
  units : List UnitDuesEntry
deriving Repr, DecidableEq

/-- `dues.get_dues_status(year, as_of_date)` (year and as-of date supplied).
For `year >= CALCULATED_DUES_START_YEAR` the code evaluates
`budget_calc.get_total_operating_budget(year)` before the per-unit loop; that
one-argument call raises TypeError, so the branch is an error. The legacy
branch (`year < CALCULATED_DUES_START_YEAR`) computes per-unit status from
the per-unit 'Dues <unit>' budgets. -/
def getDuesStatus (db : DB) (year : Int) (asOf : Date) :
    Except String DuesStatus :=
  if CALCULATED_DUES_START_YEAR ≤ year then
    Except.error typeErrorMissingAsOf
  else
    (db.units.mapM (fun u => do
      let carryover ← calculate_unit_carryover db u year
      let annualBudget := duesBudgetLegacy db year u.number
      let expectedTotal := carryover + annualBudget
      let paid := duesPaid db year asOf u.number
      let entry : UnitDuesEntry :=
        { unit := u.number
          ownershipPct := u.ownershipPct
          pastDueBalance := round2 carryover
          annualBudget := round2 annualBudget
          expectedTotal := round2 expectedTotal
          paidYtd := round2 paid
          outstanding := round2 (expectedTotal - paid) }
      pure ((expectedTotal, entry) : ℚ × UnitDuesEntry))).map
    (fun (pairs : List (ℚ × UnitDuesEntry)) =>
      { year := year
        totalAnnualBudget := round2 ((pairs.map (fun (p : ℚ × UnitDuesEntry) => p.1)).sum)
        totalOperatingBudget := none
        calculated := decide (CALCULATED_DUES_START_YEAR ≤ year)
        units := pairs.map (fun (p : ℚ × UnitDuesEntry) => p.2) })

example : getDuesStatus emptyDB 2024 ⟨2024, 12, 31⟩ =
    Except.ok ⟨2024, 0, none, false, []⟩ := by
  norm_num +decide [getDuesStatus, emptyDB, round2, CALCULATED_DUES_START_YEAR,
    List.mapM, List.mapM.loop, Except.map, pure, Except.pure]

/-- The spec's worked dues example as a database: unit 101 with 11.7%
ownership, a $50,000 Expense budget for 2025, a $200 seeded past-due balance,
and $3,000 of dues payments posted before the as-of date. -/
def specExampleDB : DB :=
  { categories := [⟨1, "Operations", "Expense", true, some "monthly"⟩,
      ⟨2, "Dues 101", "Income", true, none⟩]
    budgets := [⟨2025, 1, 50000, none⟩]
    transactions := [⟨1, "Checking", ⟨2025, 3, 1⟩, "dues payment",
      none, some 3000, 3000, some 2⟩]
    units := [⟨"101", 117/1000⟩]
    unitPastDues := [⟨"101", 2025, 200⟩]
    budgetLocks := []
    currentYearConfig := none }

/-- C1 (code evaluated at the failing input): on the spec's own example data
(ownership 11.7%, $50,000 operating budget, $200 carryover, $3,000 paid),
`get_dues_status(2025, ...)` does not return the described unit entry — it
raises the TypeError from the one-argument
`budget_calc.get_total_operating_budget(year)` call at dues.py line 102. -/
theorem dues_status_raises_on_spec_example :
    getDuesStatus specExampleDB 2025 ⟨2025, 6, 15⟩ =
      Except.error typeErrorMissingAsOf := by
  simp +decide [getDuesStatus, CALCULATED_DUES_START_YEAR]

/-- C2: for every store, every year at or past the calculated-dues cutoff and
any as-of date, `get_dues_status` raises (the TypeError surfaces before any
unit is processed) instead of returning a well-formed result. -/
theorem dues_status_raises_for_calculated_years (db : DB) (year : Int)
    (asOf : Date) (h : CALCULATED_DUES_START_YEAR ≤ year) :
    getDuesStatus db year asOf = Except.error typeErrorMissingAsOf := by
  simp [getDuesStatus, h]

/-- Witness for C2's theorem: the error on the empty store for 2026. -/
theorem dues_status_raises_for_calculated_years_witness :
    CALCULATED_DUES_START_YEAR ≤ 2026 ∧
      getDuesStatus emptyDB 2026 ⟨2026, 1, 31⟩ =
        Except.error typeErrorMissingAsOf :=
  ⟨by decide,
    dues_status_raises_for_calculated_years emptyDB 2026 ⟨2026, 1, 31⟩ (by decide)⟩

/-- C4 (code evaluated at the failing inputs): for every store, unit and
target year strictly beyond the base tracked year, `calculate_unit_carryover`
raises on the first iteration of its year-walking loop — the accumulation
`carryover + historical_debt + annual_dues - payments` is never performed,
because `annual_dues` needs `budget_calc.get_total_operating_budget(year)`,
a one-argument call of a two-argument function (dues.py line 41). -/
theorem carryover_raises_beyond_base_year (db : DB) (u : CondoUnit)
    (targetYear : Int) (h : BASE_YEAR < targetYear) :
    calculate_unit_carryover db u targetYear =
      Except.error typeErrorMissingAsOf := by
  unfold calculate_unit_carryover
  rw [if_neg (by omega)]
  have hn : (targetYear - BASE_YEAR).toNat =
      (targetYear - BASE_YEAR - 1).toNat + 1 := by omega
  rw [intRange, hn, List.range_succ_eq_map, List.map_cons, List.foldlM_cons]
  rfl

/-- Witness for C4's theorem: target year 2026 for unit 101. -/
theorem carryover_raises_beyond_base_year_witness :
    BASE_YEAR < 2026 ∧
      calculate_unit_carryover emptyDB ⟨"101", 117/1000⟩ 2026 =
        Except.error typeErrorMissingAsOf :=
  ⟨by decide,
    carryover_raises_beyond_base_year emptyDB ⟨"101", 117/1000⟩ 2026 (by decide)⟩

/-- For target years at or before the base year, the carryover is the seeded
past-due value (or 0): the loop range is empty there, so the claim's two
branches coincide with the code only in this region. -/
example : calculate_unit_carryover specExampleDB ⟨"101", 117/1000⟩ 2025 =
    Except.ok 200 := by
  norm_num +decide [calculate_unit_carryover, BASE_YEAR, getUnitPastDue,
    specExampleDB]

/-! ## Budget write handlers — `routes/budgets.py` -/

/-- HTTP-level response, reduced to the fields the claims concern:
status code, error tag, message. -/
structure Resp where
  status : Nat
  error : Option String
  message : Option String
deriving Repr, DecidableEq

/-- JSON body of `handle_upsert` (fields are optional pre-validation). -/
structure UpsertBody where
  year : Option Int
  categoryId : Option Nat
  annualAmount : Option ℚ
  timing : Option String
deriving Repr, DecidableEq

/-- JSON body of `handle_copy`. -/
structure CopyBody where
  fromYear : Option Int
  toYear : Option Int
deriving Repr, DecidableEq

/-- `INSERT INTO budgets ... ON CONFLICT(year, category_id) DO UPDATE SET
annual_amount = excluded.annual_amount, timing = excluded.timing`: update the
existing (year, category) row in place, or append a new row. -/
def upsertBudgetRow (budgets : List Budget) (year : Int) (categoryId : Nat)
    (annualAmount : ℚ) (timing : Option String) : List Budget :=
  if budgets.any (fun b => decide (b.year = year ∧ b.categoryId = categoryId)) then
    budgets.map (fun b =>
      if b.year = year ∧ b.categoryId = categoryId then
        { b with annualAmount := annualAmount, timing := timing }
      else b)
  else
    budgets ++ [⟨year, categoryId, annualAmount, timing⟩]

/-- `budgets.handle_upsert(body)`: 400 when a required field is missing, 403
'locked' when the year's budget lock is set (checked before the category
lookup and before any write), 400 when the category does not exist, otherwise
the upsert is performed. Returns the resulting store and the response. -/
def handle_upsert (db : DB) (body : UpsertBody) : DB × Resp :=
  match body.year, body.categoryId, body.annualAmount with
  | some year, some categoryId, some annualAmount =>
    if is_budget_locked db year then
      (db, ⟨403, some "locked", some "Budget is locked for this year"⟩)
    else
      match findCategory db categoryId with
      | none => (db, ⟨400, some "bad_request", some "Category not found"⟩)
      | some _ =>
        ({ db with budgets :=
            upsertBudgetRow db.budgets year categoryId annualAmount body.timing },
         ⟨200, none, none⟩)
  | _, _, _ => (db, ⟨400, some "bad_request", some "missing required field"⟩)

/-- `budgets.handle_copy(body)`: 400 when `from_year`/`to_year` is missing or
falsy (Python `if not from_year or not to_year` also rejects year 0) or when
the two years coincide; 403 'locked' when the target year's lock is set
(before the write); 400 when `get_budgets(from_year)` is empty; otherwise
`INSERT OR REPLACE` copies every budget row of `from_year` to `to_year`. -/
def handle_copy (db : DB) (body : CopyBody) : DB × Resp :=
  match body.fromYear, body.toYear with
  | some fromYear, some toYear =>
    if fromYear = 0 ∨ toYear = 0 then
      (db, ⟨400, some "bad_request", some "from_year and to_year are required"⟩)
    else if fromYear = toYear then
      (db, ⟨400, some "bad_request",
        some "from_year and to_year must be different"⟩)
    else if is_budget_locked db toYear then
      (db, ⟨403, some "locked", some "Budget is locked for the target year"⟩)
    else if (get_budgets db fromYear).isEmpty then
      (db, ⟨400, some "bad_request", some "No budgets found"⟩)
    else
      let copied := (db.budgets.filter (fun b => decide (b.year = fromYear))).foldl
        (fun bs b => upsertBudgetRow bs toYear b.categoryId b.annualAmount b.timing)
        db.budgets
      ({ db with budgets := copied }, ⟨200, none, none⟩)
  | _, _ =>
    (db, ⟨400, some "bad_request", some "from_year and to_year are required"⟩)

/-- C7: a well-formed `upsert_budget` or `copy_budgets` write targeting a
locked year is rejected with a 403 'locked' response and leaves the store —
in particular every budget row of that year — unchanged, while `get_budgets`
reads are unaffected by the lock state. -/
theorem locked_year_rejects_writes (db : DB) (y f : Int) (cid : Nat) (amt : ℚ)
    (ub : UpsertBody) (cb : CopyBody)
    (hlock : is_budget_locked db y = true)
    (hy : ub.year = some y) (hcid : ub.categoryId = some cid)
    (hamt : ub.annualAmount = some amt)
    (hf : cb.fromYear = some f) (ht : cb.toYear = some y)
    (hf0 : f ≠ 0) (hy0 : y ≠ 0) (hne : f ≠ y) :
    handle_upsert db ub =
      (db, ⟨403, some "locked", some "Budget is locked for this year"⟩) ∧
    handle_copy db cb =
      (db, ⟨403, some "locked", some "Budget is locked for the target year"⟩) ∧
    ∀ locks, get_budgets { db with budgetLocks := locks } y = get_budgets db y := by
  refine ⟨?_, ?_, fun locks => rfl⟩
  · simp [handle_upsert, hy, hcid, hamt, hlock]
  · simp [handle_copy, hf, ht, hf0, hy0, hne, hlock]

/-- A store whose 2025 budget is locked, with one 2024 budget row to copy. -/
def lockedDB : DB :=
  { categories := [⟨1, "Repairs", "Expense", true, none⟩]
    budgets := [⟨2024, 1, 100, none⟩, ⟨2025, 1, 900, none⟩]
    transactions := []
    units := []
    unitPastDues := []
    budgetLocks := [⟨2025, 1⟩]
    currentYearConfig := none }

/-- Witness for C7's theorem: concrete locked year 2025, upsert and copy both
rejected with 'locked' and the store returned unchanged; reading the budgets
of 2025 gives the same rows with the lock removed. -/
theorem locked_year_rejects_writes_witness :
    handle_upsert lockedDB ⟨some 2025, some 1, some 1200, none⟩ =
      (lockedDB, ⟨403, some "locked", some "Budget is locked for this year"⟩) ∧
    handle_copy lockedDB ⟨some 2024, some 2025⟩ =
      (lockedDB, ⟨403, some "locked", some "Budget is locked for the target year"⟩) ∧
    get_budgets { lockedDB with budgetLocks := [] } 2025 = get_budgets lockedDB 2025 := by
  obtain ⟨h1, h2, h3⟩ :=
    locked_year_rejects_writes lockedDB 2025 2024 1 1200
      ⟨some 2025, some 1, some 1200, none⟩ ⟨some 2024, some 2025⟩
      (by decide) rfl rfl rfl rfl rfl (by decide) (by decide) (by decide)
  exact ⟨h1, h2, h3 []⟩

/-! ## Statement Assembler — `routes/statement.py` -/

/-- `statement.VALID_UNITS`: the nine hard-coded unit numbers. -/
def VALID_UNITS : List String :=
  ["101", "102", "103", "201", "202", "203", "301", "302", "303"]

/-- `prior_year` block of the statement payload. -/
structure PriorYearData where
  year : Int
  annualDuesBudgeted : ℚ
  totalPaid : ℚ
  balanceCarriedForward : ℚ
deriving Repr, DecidableEq

/-- `current_year` block of the statement payload. -/
structure CurrentYearData where
  year : Int
  budgetLocked : Bool
  carryoverBalance : ℚ
  annualDues : ℚ
  totalDue : ℚ
  paidYtd : ℚ
  remainingBalance : ℚ
  originalMonthly : ℚ
  monthsRemaining : Int
  suggestedMonthly : ℚ
deriving Repr, DecidableEq

/-- One payment row returned by `get_unit_recent_payments`. -/
structure PaymentRec where
  date : Date
  amount : Option ℚ
  description : String
deriving Repr, DecidableEq

/-- Statement payload (`recent_payments` carries the ten most recent dues
payments). -/
structure StatementData where
  unit : String
  ownershipPct : ℚ
  currentYear : CurrentYearData
  priorYear : Option PriorYearData
  recentPayments : List PaymentRec
deriving Repr, DecidableEq

/-- Outcome of `handle_get_statement` (400 validation error, 404 unit not
found, or the 200 payload). -/
inductive StatementResult where
  | badRequest (message : String)
  | notFound (message : String)
  | ok (data : StatementData)
deriving Repr, DecidableEq

/-- `database.get_unit_recent_payments(unit_number, year, limit)`: positive
dues credits of the unit's year, most recent post date first, capped at
`limit`. -/
def get_unit_recent_payments (db : DB) (unitNumber : String) (year : Int)
    (limit : Nat) : List PaymentRec :=
  ((List.insertionSort (fun a b => Date.le b.date a.date)
    ((db.transactions.filter (fun t =>
      decide (txnCategoryName db t = some ("Dues " ++ unitNumber) ∧
        t.postDate.year = year ∧ t.credit.isSome ∧ 0 < t.credit.getD 0))).map
      (fun t => (⟨t.postDate, t.credit, t.description⟩ : PaymentRec))))).take limit

/-- `months_remaining` with the 15th-of-month cutoff (statement.py lines
122-128): before the 15th the current month still counts; floored to 1. -/
def monthsRemainingCalc (today : Date) : Int :=
  max 1 (if today.day < 15 then 12 - (today.month : Int) + 1
    else 12 - (today.month : Int))

/-- `suggested_monthly` (statement.py lines 130-133): 0 when the remaining
balance is non-positive, otherwise `remaining_balance / months_remaining`. -/
def suggestedMonthlyCalc (remainingBalance : ℚ) (today : Date) : ℚ :=
  if remainingBalance ≤ 0 then 0
  else remainingBalance / (monthsRemainingCalc today : ℚ)

/-- Body of `handle_get_statement` after unit validation and year resolution
(statement.py lines 45-166): prior-year summary, current-year summary with
payment guidance, and recent payments. -/
def statementForYear (db : DB) (unitNumber : String) (year : Int)
    (today : Date) : StatementResult :=
  let priorYear := year - 1
  match db.units.find? (fun u => u.number = unitNumber) with
  | none => .notFound ("Unit " ++ unitNumber ++ " not found")
  | some unit =>
    let ownershipPct := unit.ownershipPct
    let priorBudget := get_total_operating_budget_annual db priorYear
    let priorBudgeted := priorBudget * ownershipPct
    let priorHistoricalDebt := getUnitPastDue db unitNumber priorYear
    let priorPaid := get_unit_payments_total db unitNumber priorYear
    let rawBalanceCarriedForward := priorBudgeted + priorHistoricalDebt - priorPaid
    let priorYearData : Option PriorYearData :=
      if 0 < priorBudget then
        some { year := priorYear
               annualDuesBudgeted := round2 priorBudgeted
               totalPaid := round2 priorPaid
               balanceCarriedForward := round2 rawBalanceCarriedForward }
      else none
    let balanceCarriedForward := if 0 < priorBudget then rawBalanceCarriedForward else 0
    let currentBudget := get_total_operating_budget_annual db year
    let budgetLocked := is_budget_locked db year
    let annualDues := if 0 < currentBudget then currentBudget * ownershipPct else 0
    let carryover0 := if priorYearData.isSome then balanceCarriedForward else 0
    let carryoverBalance :=
      if year = 2025 ∨ (priorYearData.isNone ∧ 2025 < year) then
        let historicalDebtThisYear := getUnitPastDue db unitNumber year
        if 0 < historicalDebtThisYear then historicalDebtThisYear else carryover0
      else carryover0
    let totalDue := carryoverBalance + annualDues
    let paidYtd := get_unit_payments_total db unitNumber year
    let remainingBalance := totalDue - paidYtd
    let originalMonthly := if 0 < annualDues then annualDues / 12 else 0
    .ok { unit := unitNumber
          ownershipPct := ownershipPct
          currentYear :=
            { year := year
              budgetLocked := budgetLocked
              carryoverBalance := round2 carryoverBalance
              annualDues := round2 annualDues
              totalDue := round2 totalDue
              paidYtd := round2 paidYtd
              remainingBalance := round2 remainingBalance
              originalMonthly := round2 originalMonthly
              monthsRemaining := monthsRemainingCalc today
              suggestedMonthly := round2 (suggestedMonthlyCalc remainingBalance today) }
          priorYear := priorYearData
          recentPayments := get_unit_recent_payments db unitNumber year 10 }

/-- `statement.handle_get_statement(unit_number, year)` with today's date
made explicit. Unit validation happens first; the year, when not supplied,
falls back to the `current_year` config value and then to today's year. -/
def handle_get_statement (db : DB) (unitNumber : String) (year? : Option Int)
    (today : Date) : StatementResult :=
  if unitNumber ∉ VALID_UNITS then
    .badRequest ("Invalid unit number: " ++ unitNumber)
  else
    let year := match year? with
      | some y => y
      | none => match db.currentYearConfig with
        | some cy => cy
        | none => today.year
    statementForYear db unitNumber year today

/-- Outcome of `handle_get_payment_history`: payments are tagged with a year
only in the combined (no-year) branch, mirroring the `p['year'] = ...`
mutation. -/
inductive PaymentHistoryResult where
  | badRequest (message : String)
  | notFound (message : String)
  | ok (unit : String) (year : Option Int)
      (payments : List (PaymentRec × Option Int))
deriving Repr, DecidableEq

/-- `statement.handle_get_payment_history(unit_number, year)` with today's
date explicit. `if year:` is Python truthiness, so a `year` of 0 also takes
the combined current-and-prior-year branch. -/
def handle_get_payment_history (db : DB) (unitNumber : String)
    (year? : Option Int) (today : Date) : PaymentHistoryResult :=
  if unitNumber ∉ VALID_UNITS then
    .badRequest ("Invalid unit number: " ++ unitNumber)
  else
    match db.units.find? (fun u => u.number = unitNumber) with
    | none => .notFound ("Unit " ++ unitNumber ++ " not found")
    | some _ =>
      let combined : PaymentHistoryResult :=
        let currentYear := match db.currentYearConfig with
          | some cy => cy
          | none => today.year
        let priorYear := currentYear - 1
        let currentPayments := (get_unit_recent_payments db unitNumber currentYear
          100).map (fun p => (p, some currentYear))
        let priorPayments := (get_unit_recent_payments db unitNumber priorYear
          100).map (fun p => (p, some priorYear))
        .ok unitNumber none
          (List.insertionSort (fun a b => Date.le b.1.date a.1.date)
            (currentPayments ++ priorPayments))
      match year? with
      | some y =>
        if y = 0 then combined
        else .ok unitNumber (some y)
          ((get_unit_recent_payments db unitNumber y 100).map (fun p => (p, none)))
      | none => combined

/-- Projection of the payment-guidance fields out of a statement result:
(suggested_monthly, remaining_balance, months_remaining). -/
def statementGuidance (r : StatementResult) : Option (ℚ × ℚ × Int) :=
  match r with
  | .ok d => some (d.currentYear.suggestedMonthly,
      d.currentYear.remainingBalance, d.currentYear.monthsRemaining)
  | _ => none

/-- C9 (amended): every successfully produced statement computes
months_remaining by the 15th-of-month cutoff rule floored to a minimum of 1
(so the division never sees a zero or negative month count), and
suggested_monthly equals remaining_balance / months_remaining whenever the
remaining balance is positive — and is 0, not the quotient, when the
remaining balance is zero or negative (a credit). -/
theorem suggested_monthly_guarded (db : DB) (unitNumber : String)
    (year? : Option Int) (today : Date) (data : StatementData)
    (hok : handle_get_statement db unitNumber year? today = .ok data) :
    data.currentYear.monthsRemaining = monthsRemainingCalc today ∧
    1 ≤ data.currentYear.monthsRemaining ∧
    ∃ rem : ℚ, data.currentYear.remainingBalance = round2 rem ∧
      data.currentYear.suggestedMonthly = round2 (suggestedMonthlyCalc rem today) ∧
      (0 < rem → suggestedMonthlyCalc rem today =
        rem / (monthsRemainingCalc today : ℚ)) ∧
      (rem ≤ 0 → suggestedMonthlyCalc rem today = 0) := by
  unfold handle_get_statement at hok
  split at hok
  · exact absurd hok (by simp)
  · simp only [statementForYear] at hok
    split at hok
    · exact absurd hok (by simp)
    · rw [StatementResult.ok.injEq] at hok
      subst hok
      refine ⟨rfl, le_max_left 1 _, ?_⟩
      refine ⟨_, rfl, rfl, ?_, ?_⟩
      · intro h0
        unfold suggestedMonthlyCalc
        rw [if_neg (not_le.mpr h0)]
      · intro h0
        unfold suggestedMonthlyCalc
        rw [if_pos h0]

/-- A store holding only unit 101 (11.7%): the statement succeeds with an
all-zero current year. -/
def bareUnitDB : DB :=
  { categories := []
    budgets := []
    transactions := []
    units := [⟨"101", 117/1000⟩]
    unitPastDues := []
    budgetLocks := []
    currentYearConfig := none }

/-- The statement `bareUnitDB` produces for unit 101 in 2025 as of
2025-06-20. -/
def bareUnitStatement : StatementData :=
  ⟨"101", 117/1000, ⟨2025, false, 0, 0, 0, 0, 0, 0, 6, 0⟩, none, []⟩

/-- Witness for C9's theorem on a concrete successful statement. -/
theorem suggested_monthly_guarded_witness :
    bareUnitStatement.currentYear.monthsRemaining =
      monthsRemainingCalc ⟨2025, 6, 20⟩ ∧
    1 ≤ bareUnitStatement.currentYear.monthsRemaining ∧
    ∃ rem : ℚ, bareUnitStatement.currentYear.remainingBalance = round2 rem ∧
      bareUnitStatement.currentYear.suggestedMonthly =
        round2 (suggestedMonthlyCalc rem ⟨2025, 6, 20⟩) ∧
      (0 < rem → suggestedMonthlyCalc rem ⟨2025, 6, 20⟩ =
        rem / (monthsRemainingCalc ⟨2025, 6, 20⟩ : ℚ)) ∧
      (rem ≤ 0 → suggestedMonthlyCalc rem ⟨2025, 6, 20⟩ = 0) :=
  suggested_monthly_guarded bareUnitDB "101" (some 2025) ⟨2025, 6, 20⟩
    bareUnitStatement (by
      norm_num +decide [handle_get_statement, statementForYear, bareUnitDB,
        bareUnitStatement, get_total_operating_budget_annual, getUnitPastDue,
        get_unit_payments_total, get_unit_recent_payments, txnCategoryName,
        is_budget_locked, monthsRemainingCalc, suggestedMonthlyCalc, round2,
        sqlSum, VALID_UNITS])

/-- A store where unit 101 has overpaid: no budgets, but a $100 dues payment
in 2025, so the remaining balance is a $100 credit. -/
def creditDB : DB :=
  { categories := [⟨1, "Dues 101", "Income", true, none⟩]
    budgets := []
    transactions := [⟨1, "Checking", ⟨2025, 3, 10⟩, "payment",
      none, some 100, 100, some 1⟩]
    units := [⟨"101", 117/1000⟩]
    unitPastDues := []
    budgetLocks := []
    currentYearConfig := none }

/-- C9 counterexample to the unamended claim: with a $100 credit balance
(remaining_balance = -100) as of 2025-06-20 (months_remaining = 6), the
suggested monthly payment is 0, not remaining_balance / months_remaining
= -100/6. -/
theorem suggested_monthly_not_quotient_on_credit :
    statementGuidance (handle_get_statement creditDB "101" (some 2025)
      ⟨2025, 6, 20⟩) = some (0, -100, 6) ∧ (0 : ℚ) ≠ -100 / 6 := by
  constructor
  · norm_num +decide [statementGuidance, handle_get_statement, statementForYear,
      creditDB, get_total_operating_budget_annual, getUnitPastDue,
      get_unit_payments_total, get_unit_recent_payments, txnCategoryName,
      findCategory, is_budget_locked, monthsRemainingCalc, suggestedMonthlyCalc,
      round2, sqlSum, VALID_UNITS, List.filterMap_cons, List.filterMap_nil,
      List.sum_cons, List.sum_nil, id_eq]
  · norm_num

/-- C10: both the statement and the payment-history endpoints reject every
unit number outside the nine hard-coded VALID_UNITS with the 400 validation
error, whatever the store contains — the response is computed before the unit
store is consulted, so it is the same for every `db`. -/
theorem invalid_unit_rejected (db : DB) (unitNumber : String)
    (year? : Option Int) (today : Date) (h : unitNumber ∉ VALID_UNITS) :
    handle_get_statement db unitNumber year? today =
      .badRequest ("Invalid unit number: " ++ unitNumber) ∧
    handle_get_payment_history db unitNumber year? today =
      .badRequest ("Invalid unit number: " ++ unitNumber) := by
  constructor
  · unfold handle_get_statement
    rw [if_pos h]
  · unfold handle_get_payment_history
    rw [if_pos h]

/-- A store whose Unit table does contain a row numbered '104'. -/
def extraUnitDB : DB :=
  { categories := []
    budgets := []
    transactions := []
    units := [⟨"104", 1/10⟩]
    unitPastDues := []
    budgetLocks := []
    currentYearConfig := none }

/-- Witness for C10's theorem: '104' is outside the fixed set and is rejected
by both endpoints even though a unit row '104' exists in the store. -/
theorem invalid_unit_rejected_witness :
    "104" ∉ VALID_UNITS ∧
    (extraUnitDB.units.find? (fun u => u.number = "104")).isSome = true ∧
    handle_get_statement extraUnitDB "104" (some 2025) ⟨2025, 6, 20⟩ =
      .badRequest ("Invalid unit number: " ++ "104") ∧
    handle_get_payment_history extraUnitDB "104" (some 2025) ⟨2025, 6, 20⟩ =
      .badRequest ("Invalid unit number: " ++ "104") :=
  ⟨by decide, by decide,
    (invalid_unit_rejected extraUnitDB "104" (some 2025) ⟨2025, 6, 20⟩
      (by decide)).1,
    (invalid_unit_rejected extraUnitDB "104" (some 2025) ⟨2025, 6, 20⟩
      (by decide)).2⟩

end DWCOA
